import Mathlib

/-!
Verification development for the Titweng cattle-registry backend.

The matching core of the repository lives in routes/admin.py
(admin_register_new_cow, admin_verify_cow_by_nose), routes/mobile.py
(verify_cow_by_nose), models.py (SQLAlchemy tables), main.py
(extract_embedding / detect_nose wrappers), ml_client_local.py (the ML
client wired into main.py) and ml_client.py (an unwired HF client).

This file shallowly embeds those parts:
* similarity scores and vector components are rationals (the pgvector
  cosine-distance operator is external to the repository, so it is passed
  in as a parameter `dist`; the SQL `1 - (e.embedding <=> :q)` becomes
  `similarity dist q v = 1 - dist q v`);
* the SQLAlchemy session/commit discipline is made explicit: committed
  state is a `DB` value, each `db.commit()` in the source produces the
  next `DB` value, and an aborted request returns the last committed `DB`;
* Python exceptions (HTTPException and ML-client errors) become explicit
  `Except`/`Option` results, and the possibility that an external call
  raises is an explicit input;
* autoincrement primary keys are modelled by per-table counters.

Fields of the SQLAlchemy rows that no modelled code path reads
(emails, phone numbers, QR/receipt paths, timestamps, ...) are omitted,
as are console prints, SMS notifications, and the `float(round(x, n))`
formatting the routes apply to the similarity values they report (the
model carries the exact value that the rounding is applied to).
-/

namespace Titweng

/-- An embedding vector: the pgvector value stored in the
`embeddings.embedding` column, components as rationals. -/
abbrev Vec := List ℚ

/-- models.py `Embedding`: `embedding = Column(Vector(256))`. -/
def EMBEDDING_DIM : ℕ := 256

/-- routes/admin.py: `REGISTRATION_CONFIG = {"min_images": 3, "max_images": 3}`. -/
def REGISTRATION_MIN_IMAGES : ℕ := 3

/-- routes/admin.py: `REQUIRED_ANGLES = ["image1", "image2", "image3"]`. -/
def REQUIRED_ANGLES : List String := ["image1", "image2", "image3"]

/-- routes/admin.py line 106: `DUPLICATE_THRESHOLD = 0.93`. -/
def DUPLICATE_THRESHOLD : ℚ := 93/100

/-- routes/mobile.py line 86: `VERIFICATION_THRESHOLD = 0.85`. -/
def VERIFICATION_THRESHOLD : ℚ := 85/100

/-- routes/admin.py line 590: `ADMIN_THRESHOLD = 0.85`. -/
def ADMIN_THRESHOLD : ℚ := 85/100

/-- models.py `Owner` row (columns used by the modelled paths). -/
structure Owner where
  owner_id : ℕ
  full_name : String
deriving DecidableEq

/-- models.py `Cow` row (columns used by the modelled paths). -/
structure Cow where
  cow_id : ℕ
  cow_tag : String
  owner_id : ℕ
deriving DecidableEq

/-- models.py `Embedding` row (columns used by the modelled paths). -/
structure Embedding where
  embedding_id : ℕ
  cow_id : ℕ
  embedding : Vec
  image_angle : String
  quality_score : ℚ
  is_primary : String
deriving DecidableEq

/-- models.py `VerificationLog` row (timestamp column omitted). -/
structure VerificationLog where
  user_id : Option ℕ
  cow_id : Option ℕ
  verification_image : String
  similarity_score : ℚ
  location : String
  verified : String
deriving DecidableEq

/-- The committed database state: one list per table plus autoincrement
counters for the primary keys the modelled paths allocate. -/
structure DB where
  owners : List Owner
  cows : List Cow
  embeddings : List Embedding
  logs : List VerificationLog
  nextOwnerId : ℕ
  nextCowId : ℕ
  nextEmbId : ℕ
deriving DecidableEq

/-- SQL `1 - (e.embedding <=> :query_emb)` with the external pgvector
cosine-distance operator abstracted as `dist`. -/
def similarity (dist : Vec → Vec → ℚ) (q v : Vec) : ℚ := 1 - dist q v

/-- Row shape of the verification queries in routes/mobile.py lines 54-60 and
routes/admin.py lines 567-573: `embeddings JOIN cows ON e.cow_id = c.cow_id`. -/
structure VRow where
  embedding_id : ℕ
  cow_id : ℕ
  cow_tag : String
  vec : Vec
deriving DecidableEq

/-- The inner join `FROM embeddings e JOIN cows c ON e.cow_id = c.cow_id`
(rows without a matching cow are dropped, as an inner join does). -/
def joinCows (db : DB) : List VRow :=
  db.embeddings.filterMap fun e =>
    (db.cows.find? fun c => c.cow_id == e.cow_id).map fun c =>
      { embedding_id := e.embedding_id, cow_id := e.cow_id,
        cow_tag := c.cow_tag, vec := e.embedding }

/-- `ORDER BY e.embedding <=> :query_emb` (ascending distance = descending
similarity).  The SQL specifies no secondary sort key, so the order among
equal distances is not determined by the source; this deterministic model
uses a stable insertion sort, and `IsQueryResult` below captures exactly
what the `ORDER BY` guarantees. -/
def rankAll (dist : Vec → Vec → ℚ) (q : Vec) (db : DB) : List VRow :=
  List.insertionSort (fun a b => dist q a.vec ≤ dist q b.vec) (joinCows db)

/-- What `SELECT ... ORDER BY e.embedding <=> :q` guarantees about its result:
it is a permutation of the joined rows, ordered by ascending distance.  No
tie-break between equal distances is specified by the query. -/
def IsQueryResult (dist : Vec → Vec → ℚ) (q : Vec) (db : DB)
    (res : List VRow) : Prop :=
  res.Perm (joinCows db) ∧ res.Pairwise fun a b => dist q a.vec ≤ dist q b.vec

/-- Outcome of one file of routes/mobile.py `verify_cow_by_nose`
(lines 62-163): the three mutually exclusive response shapes built
by the source (`verification_status` NOT_FOUND / AMBIGUOUS / VERIFIED;
`confidence_level` is the VERIFIED branch's HIGH/MEDIUM string). -/
inductive MobileResult where
  | not_found (similarity : ℚ)
  | ambiguous (similarity : ℚ) (ambiguous_matches : List (String × ℚ))
  | verified (similarity : ℚ) (confidence_level : String)
      (cow_id : ℕ) (cow_tag : String)
deriving DecidableEq

/-- routes/mobile.py lines 47-163, one file of the loop, after nose
detection and embedding extraction succeeded with query embedding `q`.
This endpoint performs no database write (it only SELECTs and sends an
SMS), so the function is pure in `db`.  The source sets
`best_similarity = 0` on an empty result and then falls through the
`> 0.85` test into the NOT_FOUND branch; the empty match arm here
returns that branch's result directly, which is the same outcome. -/
def verify_cow_by_nose (dist : Vec → Vec → ℚ) (db : DB) (q : Vec) :
    MobileResult :=
  match rankAll dist q db with
  | [] => MobileResult.not_found 0
  | best :: rest =>
    let best_similarity := similarity dist q best.vec
    if VERIFICATION_THRESHOLD < best_similarity then
      let high_matches := (best :: rest).filter fun r =>
        VERIFICATION_THRESHOLD < similarity dist q r.vec
      let unique_cows := (high_matches.map fun r => r.cow_id).dedup
      if 1 < high_matches.length ∧ 1 < unique_cows.length then
        match high_matches with
        | _ :: second :: _ =>
          if 1/20 < best_similarity - similarity dist q second.vec then
            MobileResult.verified best_similarity
              (if 92/100 < best_similarity then "HIGH" else "MEDIUM")
              best.cow_id best.cow_tag
          else
            MobileResult.ambiguous best_similarity
              (((high_matches.take 3).filter fun r =>
                  unique_cows.contains r.cow_id).map fun r =>
                (r.cow_tag, similarity dist q r.vec))
        | _ =>
          MobileResult.verified best_similarity
            (if 92/100 < best_similarity then "HIGH" else "MEDIUM")
            best.cow_id best.cow_tag
      else
        MobileResult.verified best_similarity
          (if 92/100 < best_similarity then "HIGH" else "MEDIUM")
          best.cow_id best.cow_tag
    else
      MobileResult.not_found best_similarity

/-- Outcome of one file of routes/admin.py `admin_verify_cow_by_nose`
(lines 589-636): either the found shape (`verified` is "yes" or
"partial") or the not-found shape (`verified` "no"). -/
inductive AdminResult where
  | found (similarity : ℚ) (verified : String) (cow_id : ℕ) (cow_tag : String)
  | not_found (similarity : ℚ)
deriving DecidableEq

/-- routes/admin.py lines 560-636, one file of the loop, after nose
detection and embedding extraction succeeded with query embedding `q`.
Returns the database after the request (a `VerificationLog` row is
committed only in the found branch) together with the response.  As in
the mobile path, the source's `best_similarity = 0` empty-result case
falls through the threshold test into the not-found branch, which the
empty match arm returns directly. -/
def admin_verify_cow_by_nose (dist : Vec → Vec → ℚ) (db : DB) (q : Vec)
    (filename location : String) : DB × AdminResult :=
  match rankAll dist q db with
  | [] => (db, AdminResult.not_found 0)
  | best :: _ =>
    let best_similarity := similarity dist q best.vec
    if ADMIN_THRESHOLD < best_similarity then
      let verified_status := if 90/100 < best_similarity then "yes" else "partial"
      let log : VerificationLog :=
        { user_id := none, cow_id := some best.cow_id,
          verification_image := filename,
          similarity_score := best_similarity,
          location := location, verified := verified_status }
      ({ db with logs := db.logs ++ [log] },
       AdminResult.found best_similarity verified_status best.cow_id best.cow_tag)
    else
      (db, AdminResult.not_found best_similarity)

/-- Row shape of the duplicate-check query in routes/admin.py lines 88-96:
`embeddings JOIN cows JOIN owners`, selecting cow_id, cow_tag, full_name. -/
structure DRow where
  cow_id : ℕ
  cow_tag : String
  full_name : String
  vec : Vec
deriving DecidableEq

/-- The triple inner join of the duplicate-check query. -/
def joinOwners (db : DB) : List DRow :=
  db.embeddings.filterMap fun e =>
    (db.cows.find? fun c => c.cow_id == e.cow_id).bind fun c =>
      (db.owners.find? fun o => o.owner_id == c.owner_id).map fun o =>
        { cow_id := e.cow_id, cow_tag := c.cow_tag,
          full_name := o.full_name, vec := e.embedding }

/-- The duplicate-check query of routes/admin.py lines 88-98:
`ORDER BY e.embedding <=> :query_emb LIMIT 5`. -/
def rankOwners (dist : Vec → Vec → ℚ) (q : Vec) (db : DB) : List DRow :=
  (List.insertionSort (fun a b => dist q a.vec ≤ dist q b.vec)
    (joinOwners db)).take 5

/-- One uploaded nose-print file of a registration request, with the
outcomes of the per-file external ML calls made on it.  `nose_ok` is
whether `main.detect_nose(contents)` returned a detection (it returns
`None` only when the ML client raised, see `main.detect_nose` below);
`emb1` / `emb2` are the results of the two `main.extract_embedding`
calls on the same bytes (duplicate-check loop at line 82 and storage
loop at line 129; `none` models the raised HTTPException). -/
structure RegImage where
  filename : String
  nose_ok : Bool
  emb1 : Option Vec
  emb2 : Option Vec
deriving DecidableEq

/-- A registration request.  `gen_tag` is the value produced by
`generate_secure_cow_tag` (a random tag re-drawn until unique, external
randomness made an input). -/
structure RegRequest where
  owner_full_name : String
  gen_tag : String
  images : List RegImage
deriving DecidableEq

/-- The error responses `admin_register_new_cow` can abort with:
the 400 image-count check, the 400 no-nose check, the 503/400 of a
failed embedding extraction, the 409 duplicate rejection (carrying
exactly what the source interpolates into its detail string: the matched
cow's tag, its owner's full name and the similarity), a pgvector
dimension rejection at the embedding write, and a store failure. -/
inductive RegError where
  | badImageCount
  | noNoseDetected (filename : String)
  | extractionFailed (filename : String)
  | duplicate (cow_tag : String) (full_name : String) (similarity : ℚ)
  | dimensionMismatch
  | storeUnavailable
deriving DecidableEq

/-- Errors of a single embedding-row write.  models.py declares
`embedding = Column(Vector(256))`; the pgvector column type rejects a
vector of any other length at write time.  No other validation exists on
this path in the repository (in particular none for zero-norm vectors). -/
inductive InsertError where
  | dimensionMismatch
deriving DecidableEq

/-- Write one `Embedding` row: the only check is the pgvector `Vector(256)`
dimension constraint from models.py line 54. -/
def insert_embedding (db : DB) (cowId : ℕ) (v : Vec)
    (angle prim : String) : Except InsertError DB :=
  if v.length = EMBEDDING_DIM then
    Except.ok { db with
      embeddings := db.embeddings ++
        [{ embedding_id := db.nextEmbId, cow_id := cowId, embedding := v,
           image_angle := angle, quality_score := 85/100, is_primary := prim }],
      nextEmbId := db.nextEmbId + 1 }
  else
    Except.error InsertError.dimensionMismatch

/-- The embedding-save loop of routes/admin.py lines 168-178: all rows are
staged (`db.add`) and committed by one `db.commit()`, so the commit is
all-or-nothing over the rows of this registration. -/
def commit_embeddings (db : DB) (cowId : ℕ) :
    List (Vec × String × String) → Except InsertError DB
  | [] => Except.ok db
  | (v, angle, prim) :: rest =>
    match insert_embedding db cowId v angle prim with
    | Except.ok db2 => commit_embeddings db2 cowId rest
    | Except.error e => Except.error e

/-- The duplicate-check loop of routes/admin.py lines 73-119: per image, in
upload order, detect the nose (400 on failure), extract the embedding
(abort on failure), query the 5 nearest stored embeddings, and reject
with a 409 as soon as the best similarity exceeds `DUPLICATE_THRESHOLD`;
an empty result list (empty store) skips the image. -/
def duplicate_check (dist : Vec → Vec → ℚ) (db : DB) :
    List RegImage → Except RegError Unit
  | [] => Except.ok ()
  | img :: rest =>
    if img.nose_ok = false then
      Except.error (RegError.noNoseDetected img.filename)
    else
      match img.emb1 with
      | none => Except.error (RegError.extractionFailed img.filename)
      | some q =>
        match rankOwners dist q db with
        | [] => duplicate_check dist db rest
        | best_match :: _ =>
          if DUPLICATE_THRESHOLD < similarity dist q best_match.vec then
            Except.error (RegError.duplicate best_match.cow_tag
              best_match.full_name (similarity dist q best_match.vec))
          else duplicate_check dist db rest

/-- The storage loop of routes/admin.py lines 124-141: re-extract each
image's embedding (the nose re-detection result at line 128 is unused by
the source) and build the rows to store, with angle `REQUIRED_ANGLES[idx]`
and `is_primary` "yes" exactly for the first image. -/
def build_embeddings_data (images : List RegImage) (idx : ℕ) :
    Except RegError (List (Vec × String × String)) :=
  match images with
  | [] => Except.ok []
  | img :: rest =>
    match img.emb2 with
    | none => Except.error (RegError.extractionFailed img.filename)
    | some v =>
      match build_embeddings_data rest (idx + 1) with
      | Except.ok tl =>
        Except.ok ((v, REQUIRED_ANGLES.getD idx "",
          if idx = 0 then "yes" else "no") :: tl)
      | Except.error e => Except.error e

/-- The owner row created and committed at routes/admin.py lines 50-59,
before any validation of the request. -/
def new_owner (db : DB) (req : RegRequest) : Owner :=
  { owner_id := db.nextOwnerId, full_name := req.owner_full_name }

/-- The database after the owner commit at routes/admin.py line 58. -/
def owner_precommit (db : DB) (req : RegRequest) : DB :=
  { db with
    owners := db.owners ++ [new_owner db req],
    nextOwnerId := db.nextOwnerId + 1 }

/-- routes/admin.py `admin_register_new_cow` (lines 49-238), modelled up to
the QR/PDF/email generation (lines 180-217), which only writes receipt
paths onto the already-committed cow row and sends mail.  `store_ok`
models whether the final embedding commit reaches a working store
(a failing commit rolls back exactly the rows staged since the previous
commit).  The facial-image save only sets `facial_image_path` on the
committed cow row and is omitted.  Returns the last committed database
and the response (`Except.ok` carries the new cow id). -/
def admin_register_new_cow (dist : Vec → Vec → ℚ) (db0 : DB)
    (req : RegRequest) (store_ok : Bool) : DB × Except RegError ℕ :=
  let db1 := owner_precommit db0 req
  if req.images.length ≠ REGISTRATION_MIN_IMAGES then
    (db1, Except.error RegError.badImageCount)
  else
    match duplicate_check dist db1 req.images with
    | Except.error e => (db1, Except.error e)
    | Except.ok () =>
      match build_embeddings_data req.images 0 with
      | Except.error e => (db1, Except.error e)
      | Except.ok embs_data =>
        let cow : Cow := { cow_id := db1.nextCowId, cow_tag := req.gen_tag,
                           owner_id := (new_owner db0 req).owner_id }
        let db2 := { db1 with
          cows := db1.cows ++ [cow],
          nextCowId := db1.nextCowId + 1 }
        if store_ok then
          match commit_embeddings db2 cow.cow_id embs_data with
          | Except.ok db3 => (db3, Except.ok cow.cow_id)
          | Except.error _ => (db2, Except.error RegError.dimensionMismatch)
        else (db2, Except.error RegError.storeUnavailable)

/-- The nose-detection result dict built by both ML clients
(`{'detected': True, 'bbox': [0, 0, 100, 100], 'confidence': 1.0}`). -/
structure NoseDetection where
  detected : Bool
  bbox : List ℕ
  confidence : ℚ
deriving DecidableEq

/-- ml_client_local.py `LocalMLClient.detect_nose` (lines 42-48): a constant
successful detection, for every input image. -/
def LocalMLClient.detect_nose (_image_bytes : ℕ) : Option NoseDetection :=
  some { detected := true, bbox := [0, 0, 100, 100], confidence := 1 }

/-- main.py `detect_nose` (lines 180-188).  The argument is the outcome of
the wrapped `ml_client.detect_nose` call: `Except.error ()` models the
call raising (caught, logged, and turned into `None`); `Except.ok r`
models it returning `r`.  A returned detection dict is non-empty, hence
truthy in the source's `if result:`. -/
def main.detect_nose (call : Except Unit (Option NoseDetection)) :
    Option NoseDetection :=
  match call with
  | Except.error _ => none
  | Except.ok (some r) => some r
  | Except.ok none => none

/-- ml_client_local.py `LocalMLClient.extract_embedding` (lines 50-75), the
client wired into main.py (`from ml_client_local import ml_client`).
`model_loaded` is whether `_load_model` succeeded (otherwise the method
returns `None`); `inference` is the outcome of the torch forward pass
(`none` models the caught exception path, which also returns `None`).
This client never fabricates a vector: its result is `none` or exactly
the model's output. -/
def LocalMLClient.extract_embedding (model_loaded : Bool)
    (inference : Option Vec) : Option Vec :=
  if model_loaded then inference else none

/-- The only error main.py `extract_embedding` surfaces: HTTPException 503
("Failed to extract embedding" / "Embedding service unavailable"). -/
inductive MainExtractError where
  | serviceUnavailable
deriving DecidableEq

/-- main.py `extract_embedding` (lines 166-178).  The argument is the
outcome of the wrapped `ml_client.extract_embedding` call
(`Except.error ()` models the call raising).  A `None` or empty result
and a raised exception all become the 503 service-unavailable error;
only a non-empty returned vector is passed on, unchanged. -/
def main.extract_embedding (call : Except Unit (Option Vec)) :
    Except MainExtractError Vec :=
  match call with
  | Except.error _ => Except.error MainExtractError.serviceUnavailable
  | Except.ok none => Except.error MainExtractError.serviceUnavailable
  | Except.ok (some e) =>
    if 0 < e.length then Except.ok e
    else Except.error MainExtractError.serviceUnavailable

/-- ml_client.py `MLModelClient.extract_embedding` (lines 51-114), the
unwired Hugging-Face client (no module of the repository imports it;
main.py imports `ml_client_local` instead).  `hf_call` is the outcome of
the remote Gradio call after result parsing: `Except.ok (some l)` a
parsed embedding list, `Except.ok none` an unexpected result shape, and
`Except.error ()` a raised exception.  On an exception this client does
NOT fail: it returns `_generate_fallback_embedding(image_bytes)`, a
deterministic hash-seeded non-biometric vector, here abstracted as the
function `fallback` of the image bytes. -/
def MLModelClient.extract_embedding (fallback : ℕ → Vec) (image_bytes : ℕ)
    (hf_call : Except Unit (Option Vec)) : Option Vec :=
  match hf_call with
  | Except.ok (some l) => if l.length = 256 then some l else none
  | Except.ok none => none
  | Except.error _ => some (fallback image_bytes)

/-! Concrete fixtures for witnesses and counterexamples.  `exDist` is a
concrete stand-in for the external pgvector cosine-distance operator:
distance is determined by the first components, so a stored vector with
first component `s` has similarity `s` to the probe `[1]`. -/

/-- Concrete stand-in for the external distance operator. -/
def exDist : Vec → Vec → ℚ := fun a b => 1 - a.headD 0 * b.headD 0

/-- An empty database. -/
def emptyDB : DB :=
  { owners := [], cows := [], embeddings := [], logs := [],
    nextOwnerId := 1, nextCowId := 1, nextEmbId := 1 }

/-- One registered cow whose single embedding has similarity 9/10 to the
probe `[1]` under `exDist`. -/
def exDbSingle : DB :=
  { owners := [{ owner_id := 1, full_name := "Bob" }],
    cows := [{ cow_id := 1, cow_tag := "T1", owner_id := 1 }],
    embeddings := [{ embedding_id := 1, cow_id := 1, embedding := [9/10],
                     image_angle := "image1", quality_score := 85/100,
                     is_primary := "yes" }],
    logs := [], nextOwnerId := 2, nextCowId := 2, nextEmbId := 2 }

/-- Two registered cows with similarities 9/10 and 22/25 (= 0.88) to the
probe `[1]`: both above 0.85, gap 1/50 below the 0.05 ambiguity gap. -/
def exDbTwo : DB :=
  { owners := [{ owner_id := 1, full_name := "Bob" }],
    cows := [{ cow_id := 1, cow_tag := "T1", owner_id := 1 },
             { cow_id := 2, cow_tag := "T2", owner_id := 1 }],
    embeddings := [{ embedding_id := 1, cow_id := 1, embedding := [9/10],
                     image_angle := "image1", quality_score := 85/100,
                     is_primary := "yes" },
                   { embedding_id := 2, cow_id := 2, embedding := [22/25],
                     image_angle := "image1", quality_score := 85/100,
                     is_primary := "yes" }],
    logs := [], nextOwnerId := 2, nextCowId := 3, nextEmbId := 3 }

/-- One registered cow whose single embedding has similarity 19/20 = 0.95
to the probe `[1]`; the cow's id is 1. -/
def exDbA : DB :=
  { owners := [{ owner_id := 1, full_name := "Bob" }],
    cows := [{ cow_id := 1, cow_tag := "T1", owner_id := 1 }],
    embeddings := [{ embedding_id := 1, cow_id := 1, embedding := [19/20],
                     image_angle := "image1", quality_score := 85/100,
                     is_primary := "yes" }],
    logs := [], nextOwnerId := 2, nextCowId := 2, nextEmbId := 2 }

/-- Same single-cow store as `exDbA` except the cow's id is 2. -/
def exDbB : DB :=
  { owners := [{ owner_id := 1, full_name := "Bob" }],
    cows := [{ cow_id := 2, cow_tag := "T1", owner_id := 1 }],
    embeddings := [{ embedding_id := 1, cow_id := 2, embedding := [19/20],
                     image_angle := "image1", quality_score := 85/100,
                     is_primary := "yes" }],
    logs := [], nextOwnerId := 2, nextCowId := 3, nextEmbId := 2 }

/-- Three cows: cow 1 with two embeddings of similarity 0.95 and 0.94 to
the probe `[1]`, cow 2 with one of 0.93, cow 3 with one of 0.86 — four
embeddings above the 0.85 verification threshold, three distinct cows. -/
def exDbFour : DB :=
  { owners := [{ owner_id := 1, full_name := "Bob" }],
    cows := [{ cow_id := 1, cow_tag := "T1", owner_id := 1 },
             { cow_id := 2, cow_tag := "T2", owner_id := 1 },
             { cow_id := 3, cow_tag := "T3", owner_id := 1 }],
    embeddings := [{ embedding_id := 1, cow_id := 1, embedding := [19/20],
                     image_angle := "image1", quality_score := 85/100,
                     is_primary := "yes" },
                   { embedding_id := 2, cow_id := 1, embedding := [47/50],
                     image_angle := "image2", quality_score := 85/100,
                     is_primary := "no" },
                   { embedding_id := 3, cow_id := 2, embedding := [93/100],
                     image_angle := "image1", quality_score := 85/100,
                     is_primary := "yes" },
                   { embedding_id := 4, cow_id := 3, embedding := [43/50],
                     image_angle := "image1", quality_score := 85/100,
                     is_primary := "yes" }],
    logs := [], nextOwnerId := 2, nextCowId := 4, nextEmbId := 5 }

/-- One registered cow whose single embedding has similarity 1/2 to the
probe `[1]` — below every verification threshold. -/
def exDbLow : DB :=
  { owners := [{ owner_id := 1, full_name := "Bob" }],
    cows := [{ cow_id := 1, cow_tag := "T1", owner_id := 1 }],
    embeddings := [{ embedding_id := 1, cow_id := 1, embedding := [1/2],
                     image_angle := "image1", quality_score := 85/100,
                     is_primary := "yes" }],
    logs := [], nextOwnerId := 2, nextCowId := 2, nextEmbId := 2 }

/-- One cow with two embedding records whose vectors are equal, hence at
the same distance from every probe: records 1 and 2 tie. -/
def exDbTie : DB :=
  { owners := [{ owner_id := 1, full_name := "Bob" }],
    cows := [{ cow_id := 1, cow_tag := "T1", owner_id := 1 }],
    embeddings := [{ embedding_id := 1, cow_id := 1, embedding := [1/2],
                     image_angle := "image1", quality_score := 85/100,
                     is_primary := "yes" },
                   { embedding_id := 2, cow_id := 1, embedding := [1/2],
                     image_angle := "image2", quality_score := 85/100,
                     is_primary := "no" }],
    logs := [], nextOwnerId := 2, nextCowId := 2, nextEmbId := 3 }

/-- The joined row of `exDbTie`'s record 1. -/
def tieRow1 : VRow :=
  { embedding_id := 1, cow_id := 1, cow_tag := "T1", vec := [1/2] }

/-- The joined row of `exDbTie`'s record 2. -/
def tieRow2 : VRow :=
  { embedding_id := 2, cow_id := 1, cow_tag := "T1", vec := [1/2] }

/-- The joined row of `exDbTwo`'s record 1. -/
def twoRow1 : VRow :=
  { embedding_id := 1, cow_id := 1, cow_tag := "T1", vec := [9/10] }

/-- The joined row of `exDbTwo`'s record 2. -/
def twoRow2 : VRow :=
  { embedding_id := 2, cow_id := 2, cow_tag := "T2", vec := [22/25] }

/-- An image whose ML calls all succeed, extracting the probe `[1]`. -/
def exImgOk : RegImage :=
  { filename := "a.jpg", nose_ok := true, emb1 := some [1], emb2 := some [1] }

/-- A registration request with three successfully processed images. -/
def exReqDup : RegRequest :=
  { owner_full_name := "Alice", gen_tag := "TW-2026-002-AAAA",
    images := [exImgOk, exImgOk, exImgOk] }

/-- A registration request whose first image has no detected nose. -/
def exReqNoNose : RegRequest :=
  { owner_full_name := "Alice", gen_tag := "TW-2026-001-AAAA",
    images := [{ filename := "a.jpg", nose_ok := false, emb1 := none, emb2 := none },
               { filename := "b.jpg", nose_ok := true, emb1 := none, emb2 := none },
               { filename := "c.jpg", nose_ok := true, emb1 := none, emb2 := none }] }

/-- An image whose second-pass extraction yields a 256-dimensional vector. -/
def exImg256 : RegImage :=
  { filename := "a.jpg", nose_ok := true, emb1 := some [1],
    emb2 := some (List.replicate 256 1) }

/-- A registration request that passes every check. -/
def exReqGood : RegRequest :=
  { owner_full_name := "Alice", gen_tag := "TW-2026-001-AAAA",
    images := [exImg256, exImg256, exImg256] }

/-- The embedding row written for the 256-dimensional zero vector. -/
def zeroRow : Embedding :=
  { embedding_id := 1, cow_id := 1, embedding := List.replicate 256 0,
    image_angle := "image1", quality_score := 85/100, is_primary := "yes" }

/-- A concrete instantiation of the abstracted fallback generator of
`MLModelClient._generate_fallback_embedding`. -/
def exFallback : ℕ → Vec := fun _ => [1]

/-- The log row `admin_verify_cow_by_nose` writes for the best match of
`exDbTwo` against the probe `[1]`. -/
def expLogTwo : VerificationLog :=
  { user_id := none, cow_id := some 1, verification_image := "f.jpg",
    similarity_score := 9/10, location := "L", verified := "partial" }

/-! Helper lemmas. -/

/-- With an empty embeddings table every join is empty. -/
theorem joinCows_embeddings_nil {db : DB} (h : db.embeddings = []) :
    joinCows db = [] := by
  simp [joinCows, h]

/-- With an empty embeddings table the verification query returns no rows. -/
theorem rankAll_embeddings_nil {db : DB} (h : db.embeddings = []) (dist q) :
    rankAll dist q db = [] := by
  simp [rankAll, joinCows_embeddings_nil h, List.insertionSort]

/-- C5: for every verification query against a store with zero embedding
records, both the mobile and the admin path produce the not-found outcome
with similarity 0 (and the admin path leaves the database unchanged). -/
theorem C5_empty_store_not_found (dist : Vec → Vec → ℚ) (db : DB) (q : Vec)
    (filename location : String) (h : db.embeddings = []) :
    verify_cow_by_nose dist db q = MobileResult.not_found 0 ∧
    admin_verify_cow_by_nose dist db q filename location =
      (db, AdminResult.not_found 0) := by
  constructor
  · simp [verify_cow_by_nose, rankAll_embeddings_nil h]
  · simp [admin_verify_cow_by_nose, rankAll_embeddings_nil h]

/-- Witness for C5 at the concrete empty store. -/
theorem C5_empty_store_not_found_witness :
    emptyDB.embeddings = [] ∧
    verify_cow_by_nose exDist emptyDB [1] = MobileResult.not_found 0 ∧
    admin_verify_cow_by_nose exDist emptyDB [1] "f.jpg" "L" =
      (emptyDB, AdminResult.not_found 0) :=
  ⟨rfl, (C5_empty_store_not_found exDist emptyDB [1] "f.jpg" "L" rfl).1,
    (C5_empty_store_not_found exDist emptyDB [1] "f.jpg" "L" rfl).2⟩

/-- C6 (amended): the store's only write-time validation is the pgvector
dimension constraint: a vector whose length differs from 256 is rejected
with a dimension-mismatch error and nothing is written, while any vector
of length 256 — including the zero vector — is accepted and the record is
written.  No zero-norm (degenerate-vector) check exists in the code. -/
theorem C6_insert_validation (db : DB) (cowId : ℕ) (v : Vec)
    (angle prim : String) :
    (v.length ≠ EMBEDDING_DIM →
      insert_embedding db cowId v angle prim =
        Except.error InsertError.dimensionMismatch) ∧
    (v.length = EMBEDDING_DIM →
      insert_embedding db cowId v angle prim = Except.ok { db with
        embeddings := db.embeddings ++
          [{ embedding_id := db.nextEmbId, cow_id := cowId, embedding := v,
             image_angle := angle, quality_score := 85/100,
             is_primary := prim }],
        nextEmbId := db.nextEmbId + 1 }) := by
  constructor <;> (intro h; simp [insert_embedding, h])

/-- Witness for C6: a 255-length vector is rejected with
dimension-mismatch, a 256-length vector is written. -/
theorem C6_insert_validation_witness :
    insert_embedding emptyDB 1 (List.replicate 255 1) "image1" "yes" =
      Except.error InsertError.dimensionMismatch ∧
    insert_embedding emptyDB 1 (List.replicate 256 0) "image1" "yes" =
      Except.ok { emptyDB with embeddings := [zeroRow], nextEmbId := 2 } := by
  constructor
  · exact (C6_insert_validation emptyDB 1 (List.replicate 255 1) "image1"
      "yes").1 (by norm_num [EMBEDDING_DIM])
  · have h := (C6_insert_validation emptyDB 1 (List.replicate 256 0) "image1"
      "yes").2 (by norm_num [EMBEDDING_DIM])
    rw [h]
    norm_num [emptyDB, zeroRow]

/-- Counterexample to C6 as stated: the 256-dimensional zero vector — a
vector of Euclidean norm zero, i.e. all components zero — is accepted by
the insert operation and the record is written; there is no
degenerate-vector rejection. -/
theorem C6_zero_vector_accepted_cex :
    (List.replicate 256 (0 : ℚ)).length = EMBEDDING_DIM ∧
    (∀ x ∈ List.replicate 256 (0 : ℚ), x = 0) ∧
    insert_embedding emptyDB 1 (List.replicate 256 0) "image1" "yes" =
      Except.ok { emptyDB with embeddings := [zeroRow], nextEmbId := 2 } ∧
    ({ emptyDB with embeddings := [zeroRow], nextEmbId := 2 } : DB).embeddings
      ≠ [] := by
  refine ⟨by norm_num [EMBEDDING_DIM], fun x hx => (List.eq_of_mem_replicate hx),
    ?_, by simp⟩
  norm_num [insert_embedding, EMBEDDING_DIM, emptyDB, zeroRow]

/-- C9 (amended): with the client actually wired into main.py
(`LocalMLClient`), every extraction failure — model not loaded, inference
exception, returned `None`, or a raised call — surfaces from
`main.extract_embedding` as the 503 service-unavailable error, and the
local client never fabricates a vector (its successful result is exactly
the model's output). -/
theorem C9_extraction_failure_surfaces :
    (∀ inference, LocalMLClient.extract_embedding false inference = none) ∧
    (∀ model_loaded inference v,
      LocalMLClient.extract_embedding model_loaded inference = some v →
      inference = some v) ∧
    (∀ model_loaded inference,
      model_loaded = false ∨ inference = none →
      main.extract_embedding
        (Except.ok (LocalMLClient.extract_embedding model_loaded inference)) =
        Except.error MainExtractError.serviceUnavailable) ∧
    main.extract_embedding (Except.error ()) =
      Except.error MainExtractError.serviceUnavailable := by
  refine ⟨fun inference => rfl, ?_, ?_, rfl⟩
  · intro ml inf v h
    cases ml
    · simp [LocalMLClient.extract_embedding] at h
    · simpa [LocalMLClient.extract_embedding] using h
  · rintro ml inf (rfl | rfl)
    · rfl
    · cases ml <;> rfl

/-- Witness for C9 at concrete failing inputs. -/
theorem C9_extraction_failure_surfaces_witness :
    LocalMLClient.extract_embedding false (some [1]) = none ∧
    ([1] : Vec) = [1] ∧
    main.extract_embedding
      (Except.ok (LocalMLClient.extract_embedding true none)) =
      Except.error MainExtractError.serviceUnavailable :=
  ⟨C9_extraction_failure_surfaces.1 (some [1]),
    rfl,
    C9_extraction_failure_surfaces.2.2.1 true none (Or.inr rfl)⟩

/-- Counterexample to C9 as stated: the repository also contains
`MLModelClient.extract_embedding` (ml_client.py, cited by the claim),
which on an extractor exception does not surface the failure: it returns
a fabricated hash-seeded fallback embedding, which `main.extract_embedding`
would accept as a successful extraction, so the matching path would
continue with non-biometric data. -/
theorem C9_fallback_fabrication_cex :
    MLModelClient.extract_embedding exFallback 0 (Except.error ()) =
      some [1] ∧
    main.extract_embedding
      (Except.ok (MLModelClient.extract_embedding exFallback 0
        (Except.error ()))) = Except.ok [1] :=
  ⟨rfl, rfl⟩

/-- When every image's nose detection succeeded, the duplicate-check loop
never produces the no-nose error. -/
theorem duplicate_check_no_nose (dist : Vec → Vec → ℚ) (db : DB) :
    ∀ (imgs : List RegImage) (fn : String),
      (∀ i ∈ imgs, i.nose_ok = true) →
      duplicate_check dist db imgs ≠
        Except.error (RegError.noNoseDetected fn) := by
  intro imgs
  induction imgs with
  | nil => intro fn _ h; simp [duplicate_check] at h
  | cons img rest ih =>
    intro fn hall h
    have h1 : img.nose_ok = true := hall img (by simp)
    have hrest : ∀ i ∈ rest, i.nose_ok = true := fun i hi => hall i (by simp [hi])
    rw [duplicate_check, h1] at h
    simp only [Bool.true_eq_false, if_false] at h
    cases hemb : img.emb1 with
    | none => rw [hemb] at h; simp at h
    | some q =>
      rw [hemb] at h
      dsimp only at h
      cases hro : rankOwners dist q db with
      | nil => rw [hro] at h; exact ih fn hrest h
      | cons bm tl =>
        rw [hro] at h
        dsimp only at h
        by_cases hd : DUPLICATE_THRESHOLD < similarity dist q bm.vec
        · rw [if_pos hd] at h; simp at h
        · rw [if_neg hd] at h; exact ih fn hrest h

/-- The storage loop only ever fails with an extraction error. -/
theorem build_embeddings_data_no_nose :
    ∀ (imgs : List RegImage) (idx : ℕ) (fn : String),
      build_embeddings_data imgs idx ≠
        Except.error (RegError.noNoseDetected fn) := by
  intro imgs
  induction imgs with
  | nil => intro idx fn h; simp [build_embeddings_data] at h
  | cons img rest ih =>
    intro idx fn h
    rw [build_embeddings_data] at h
    cases hemb : img.emb2 with
    | none => rw [hemb] at h; simp at h
    | some v =>
      rw [hemb] at h
      cases hb : build_embeddings_data rest (idx + 1) with
      | ok tl => rw [hb] at h; simp at h
      | error e =>
        rw [hb] at h
        simp only [Except.error.injEq] at h
        exact ih (idx + 1) fn (by rw [hb, h])

/-- C10: the local ML client's nose detection returns the same successful
detection (`detected=True`, bbox `[0,0,100,100]`, confidence 1) for every
input image; through the main.py wrapper this is never `None`, so the
registration's no-nose rejection cannot fire when detection ran without an
exception (i.e. when every image's detection produced a result). -/
theorem C10_nose_detection_constant :
    (∀ img, LocalMLClient.detect_nose img =
      some { detected := true, bbox := [0, 0, 100, 100], confidence := 1 }) ∧
    (∀ img, main.detect_nose (Except.ok (LocalMLClient.detect_nose img)) =
      some { detected := true, bbox := [0, 0, 100, 100], confidence := 1 }) ∧
    (∀ (dist : Vec → Vec → ℚ) (db : DB) (req : RegRequest) (ok : Bool)
        (fn : String),
      (∀ i ∈ req.images, i.nose_ok = true) →
      (admin_register_new_cow dist db req ok).2 ≠
        Except.error (RegError.noNoseDetected fn)) := by
  refine ⟨fun img => rfl, fun img => rfl, ?_⟩
  intro dist db req ok fn hall h
  rw [admin_register_new_cow] at h
  by_cases hlen : req.images.length ≠ REGISTRATION_MIN_IMAGES
  · rw [if_pos hlen] at h; simp at h
  · rw [if_neg hlen] at h
    cases hdc : duplicate_check dist (owner_precommit db req) req.images with
    | error e =>
      rw [hdc] at h
      simp only [Except.error.injEq] at h
      exact duplicate_check_no_nose dist (owner_precommit db req) req.images
        fn hall (by rw [hdc, h])
    | ok u =>
      cases u
      rw [hdc] at h
      cases hb : build_embeddings_data req.images 0 with
      | error e =>
        rw [hb] at h
        simp only [Except.error.injEq] at h
        exact build_embeddings_data_no_nose req.images 0 fn (by rw [hb, h])
      | ok embs_data =>
        rw [hb] at h
        cases ok with
        | false => simp at h
        | true =>
          simp only [if_true] at h
          cases hc : commit_embeddings
              { owner_precommit db req with
                cows := (owner_precommit db req).cows ++
                  [{ cow_id := (owner_precommit db req).nextCowId,
                     cow_tag := req.gen_tag,
                     owner_id := (new_owner db req).owner_id }],
                nextCowId := (owner_precommit db req).nextCowId + 1 }
              (owner_precommit db req).nextCowId embs_data with
          | ok db3 => rw [hc] at h; simp at h
          | error e2 => rw [hc] at h; simp at h

/-- Witness for C10 at a concrete image and request. -/
theorem C10_nose_detection_constant_witness :
    main.detect_nose (Except.ok (LocalMLClient.detect_nose 7)) =
      some { detected := true, bbox := [0, 0, 100, 100], confidence := 1 } ∧
    (admin_register_new_cow exDist emptyDB exReqGood true).2 ≠
      Except.error (RegError.noNoseDetected "a.jpg") := by
  refine ⟨C10_nose_detection_constant.2.1 7, ?_⟩
  exact C10_nose_detection_constant.2.2 exDist emptyDB exReqGood true "a.jpg"
    (by intro i hi; fin_cases hi <;> rfl)

/-- Characterization of the admin nose verification when the query returns
a best row above the admin threshold: the response names the top cow and a
log row is committed. -/
theorem admin_verify_found (dist : Vec → Vec → ℚ) (db : DB) (q : Vec)
    (filename location : String) (best : VRow) (rest : List VRow)
    (hr : rankAll dist q db = best :: rest)
    (hs : ADMIN_THRESHOLD < similarity dist q best.vec) :
    admin_verify_cow_by_nose dist db q filename location =
      ({ db with logs := db.logs ++
          [{ user_id := none, cow_id := some best.cow_id,
             verification_image := filename,
             similarity_score := similarity dist q best.vec,
             location := location,
             verified := if 90/100 < similarity dist q best.vec
               then "yes" else "partial" }] },
       AdminResult.found (similarity dist q best.vec)
         (if 90/100 < similarity dist q best.vec then "yes" else "partial")
         best.cow_id best.cow_tag) := by
  simp only [admin_verify_cow_by_nose]
  rw [hr]
  dsimp only
  rw [if_pos hs]

/-- Characterization of the admin nose verification when the best row is at
or below the admin threshold: not-found response and no database write. -/
theorem admin_verify_below (dist : Vec → Vec → ℚ) (db : DB) (q : Vec)
    (filename location : String) (best : VRow) (rest : List VRow)
    (hr : rankAll dist q db = best :: rest)
    (hs : ¬ ADMIN_THRESHOLD < similarity dist q best.vec) :
    admin_verify_cow_by_nose dist db q filename location =
      (db, AdminResult.not_found (similarity dist q best.vec)) := by
  simp only [admin_verify_cow_by_nose]
  rw [hr]
  dsimp only
  rw [if_neg hs]

/-- C7 (amended): in the admin nose verification, a `VerificationLog` row
recording the matched cow, the similarity, the yes/partial decision and the
location is appended exactly when the best match exceeds the 0.85 admin
threshold; a below-threshold or empty-store attempt writes no log row.
(The mobile nose verification is modelled as pure, because the source
performs no database write there at all.) -/
theorem C7_logging_policy :
    (∀ (dist : Vec → Vec → ℚ) (db : DB) (q : Vec)
        (filename location : String) (best : VRow) (rest : List VRow),
      rankAll dist q db = best :: rest →
      ADMIN_THRESHOLD < similarity dist q best.vec →
      (admin_verify_cow_by_nose dist db q filename location).1.logs =
        db.logs ++
          [{ user_id := none, cow_id := some best.cow_id,
             verification_image := filename,
             similarity_score := similarity dist q best.vec,
             location := location,
             verified := if 90/100 < similarity dist q best.vec
               then "yes" else "partial" }]) ∧
    (∀ (dist : Vec → Vec → ℚ) (db : DB) (q : Vec)
        (filename location : String) (best : VRow) (rest : List VRow),
      rankAll dist q db = best :: rest →
      ¬ ADMIN_THRESHOLD < similarity dist q best.vec →
      (admin_verify_cow_by_nose dist db q filename location).1 = db) ∧
    (∀ (dist : Vec → Vec → ℚ) (db : DB) (q : Vec)
        (filename location : String),
      rankAll dist q db = [] →
      (admin_verify_cow_by_nose dist db q filename location).1 = db) := by
  refine ⟨?_, ?_, ?_⟩
  · intro dist db q filename location best rest hr hs
    rw [admin_verify_found dist db q filename location best rest hr hs]
  · intro dist db q filename location best rest hr hs
    rw [admin_verify_below dist db q filename location best rest hr hs]
  · intro dist db q filename location hr
    simp only [admin_verify_cow_by_nose]
    rw [hr]

/-- Witness for C7 at the concrete two-cow store. -/
theorem C7_logging_policy_witness :
    (admin_verify_cow_by_nose exDist exDbTwo [1] "f.jpg" "L").1.logs =
      exDbTwo.logs ++ [expLogTwo] := by
  have h := C7_logging_policy.1 exDist exDbTwo [1] "f.jpg" "L" twoRow1
    [twoRow2]
    (by norm_num [rankAll, joinCows, exDbTwo, twoRow1, twoRow2, exDist,
      List.insertionSort, List.orderedInsert, List.find?])
    (by norm_num [ADMIN_THRESHOLD, similarity, exDist, twoRow1])
  rw [h]
  norm_num [expLogTwo, similarity, exDist, twoRow1, exDbTwo]

/-- Counterexample to C7 as stated: a below-threshold admin verification
attempt (best similarity 1/2 against a non-empty store) produces a
not-found outcome but appends no `VerificationLogEntry` — the final
database still has an empty log table. -/
theorem C7_admin_notfound_no_log_cex :
    admin_verify_cow_by_nose exDist exDbLow [1] "f.jpg" "L" =
      (exDbLow, AdminResult.not_found (1/2)) ∧
    exDbLow.logs = [] := by
  constructor
  · norm_num [admin_verify_cow_by_nose, rankAll, joinCows, exDbLow, exDist,
      similarity, ADMIN_THRESHOLD, List.insertionSort, List.orderedInsert,
      List.find?]
  · rfl

/-- A sorted permutation of a list is unique when the sort keys are
pairwise distinct. -/
theorem sorted_perm_eq_of_distinct {α : Type} (key : α → ℚ) :
    ∀ (l1 l2 : List α), l1.Perm l2 →
      l1.Pairwise (fun a b => key a ≤ key b) →
      l2.Pairwise (fun a b => key a ≤ key b) →
      l1.Pairwise (fun a b => key a ≠ key b) →
      l1 = l2 := by
  intro l1
  induction l1 with
  | nil =>
    intro l2 hp _ _ _
    exact hp.nil_eq
  | cons a t1 ih =>
    intro l2 hp hs1 hs2 hd1
    cases l2 with
    | nil => exact absurd hp.symm.nil_eq (by simp)
    | cons b t2 =>
      have hab : a = b := by
        by_contra hne
        have hbmem : b ∈ a :: t1 := hp.symm.subset (by simp)
        have hamem : a ∈ b :: t2 := hp.subset (by simp)
        have hb1 : b ∈ t1 := by
          rcases List.mem_cons.mp hbmem with h | h
          · exact absurd h.symm hne
          · exact h
        have ha2 : a ∈ t2 := by
          rcases List.mem_cons.mp hamem with h | h
          · exact absurd h hne
          · exact h
        have h1 : key a ≤ key b := (List.pairwise_cons.mp hs1).1 b hb1
        have h2 : key b ≤ key a := (List.pairwise_cons.mp hs2).1 a ha2
        exact (List.pairwise_cons.mp hd1).1 b hb1 (le_antisymm h1 h2)
      subst hab
      have hp' : t1.Perm t2 := (List.perm_cons a).mp hp
      rw [ih t2 hp' (List.pairwise_cons.mp hs1).2 (List.pairwise_cons.mp hs2).2
        (List.pairwise_cons.mp hd1).2]

/-- C8 (amended): the model's ranking realizes the query contract
(permutation of the joined rows, ordered most similar first), and whenever
the distances of the stored rows to the probe are pairwise distinct the
contract determines the result uniquely — so repeated identical calls
agree except possibly on the order of exact ties, which the query leaves
unspecified. -/
theorem C8_rank_determinism (dist : Vec → Vec → ℚ) (q : Vec) (db : DB) :
    IsQueryResult dist q db (rankAll dist q db) ∧
    ((joinCows db).Pairwise (fun a b => dist q a.vec ≠ dist q b.vec) →
      ∀ res1 res2, IsQueryResult dist q db res1 →
        IsQueryResult dist q db res2 → res1 = res2) := by
  constructor
  · refine ⟨List.perm_insertionSort _ _, ?_⟩
    haveI ht : IsTotal VRow (fun a b => dist q a.vec ≤ dist q b.vec) :=
      ⟨fun a b => le_total _ _⟩
    haveI htr : IsTrans VRow (fun a b => dist q a.vec ≤ dist q b.vec) :=
      ⟨fun a b c hab hbc => le_trans hab hbc⟩
    exact List.sorted_insertionSort _ _
  · intro hdist res1 res2 h1 h2
    refine sorted_perm_eq_of_distinct (fun r => dist q r.vec) res1 res2
      (h1.1.trans h2.1.symm) h1.2 h2.2 ?_
    exact (List.Perm.pairwise_iff (by intro x y h; exact Ne.symm h)
      h1.1).mpr hdist

/-- Witness for C8: with pairwise-distinct distances, any valid query
result equals the model ranking. -/
theorem C8_rank_determinism_witness :
    ([twoRow1, twoRow2] : List VRow) = rankAll exDist [1] exDbTwo := by
  have hj : joinCows exDbTwo = [twoRow1, twoRow2] := rfl
  refine (C8_rank_determinism exDist [1] exDbTwo).2 ?_ [twoRow1, twoRow2]
    (rankAll exDist [1] exDbTwo) ?_ (C8_rank_determinism exDist [1] exDbTwo).1
  · rw [hj]
    norm_num [List.pairwise_cons, twoRow1, twoRow2, exDist]
  · constructor
    · rw [hj]
    · norm_num [List.pairwise_cons, twoRow1, twoRow2, exDist]

/-- Counterexample to C8 as stated: two records of the store tie (equal
distance to the probe), and both orders of the tied pair satisfy
everything the `ORDER BY` query guarantees — in particular the order with
the higher record id first is a valid result, so the ranking is neither
forced to break ties by lowest record id nor determined to be identical
across calls. -/
theorem C8_tie_order_underdetermined_cex :
    IsQueryResult exDist [1] exDbTie [tieRow1, tieRow2] ∧
    IsQueryResult exDist [1] exDbTie [tieRow2, tieRow1] ∧
    ([tieRow2, tieRow1] : List VRow) ≠ [tieRow1, tieRow2] ∧
    tieRow1.embedding_id < tieRow2.embedding_id ∧
    exDist [1] tieRow1.vec = exDist [1] tieRow2.vec := by
  have hj : joinCows exDbTie = [tieRow1, tieRow2] := rfl
  refine ⟨⟨by rw [hj], ?_⟩, ⟨?_, ?_⟩, ?_, by norm_num [tieRow1, tieRow2], rfl⟩
  · norm_num [List.pairwise_cons, tieRow1, tieRow2, exDist]
  · rw [hj]
    exact List.Perm.swap tieRow1 tieRow2 []
  · norm_num [List.pairwise_cons, tieRow1, tieRow2, exDist]
  · norm_num [tieRow1, tieRow2]

/-- Characterization of the mobile AMBIGUOUS branch: when more than one
high match exists, more than one distinct cow is above the threshold, and
the gap between the best and the second-highest embedding match (which may
belong to the same cow as the best) is at most 0.05, the result is the
ambiguous response listing the first three high matches. -/
theorem mobile_ambiguous_eq (dist : Vec → Vec → ℚ) (db : DB) (q : Vec)
    (best : VRow) (rest : List VRow) (h2 : VRow) (hrest2 : List VRow)
    (hr : rankAll dist q db = best :: rest)
    (hbest : VERIFICATION_THRESHOLD < similarity dist q best.vec)
    (hhigh : ((best :: rest).filter fun r =>
        VERIFICATION_THRESHOLD < similarity dist q r.vec) =
      best :: h2 :: hrest2)
    (hcows : 1 < (((best :: h2 :: hrest2).map fun r => r.cow_id).dedup).length)
    (hgap : ¬ 1/20 < similarity dist q best.vec - similarity dist q h2.vec) :
    verify_cow_by_nose dist db q =
      MobileResult.ambiguous (similarity dist q best.vec)
        ((((best :: h2 :: hrest2).take 3).filter fun r =>
            (((best :: h2 :: hrest2).map fun r => r.cow_id).dedup).contains
              r.cow_id).map fun r => (r.cow_tag, similarity dist q r.vec)) := by
  simp only [verify_cow_by_nose]
  rw [hr]
  dsimp only
  rw [if_pos hbest, hhigh]
  have hlen : 1 < (best :: h2 :: hrest2).length := by
    simp [List.length_cons]
  rw [if_pos ⟨hlen, hcows⟩]
  exact if_neg hgap

/-- Any VERIFIED mobile response has its best similarity above the 0.85
threshold and its confidence level determined by the 0.92 cut — the
source never produces a PARTIAL status on this path. -/
theorem mobile_verified_inv (dist : Vec → Vec → ℚ) (db : DB) (q : Vec)
    (s : ℚ) (conf : String) (cid : ℕ) (ct : String)
    (h : verify_cow_by_nose dist db q = MobileResult.verified s conf cid ct) :
    VERIFICATION_THRESHOLD < s ∧
    conf = (if 92/100 < s then "HIGH" else "MEDIUM") := by
  simp only [verify_cow_by_nose] at h
  split at h
  · exact absurd h (by simp)
  · split at h
    case isTrue hb =>
      split at h
      · split at h
        · split at h
          · simp only [MobileResult.verified.injEq] at h
            obtain ⟨h1, h2a, _, _⟩ := h
            subst h1
            exact ⟨hb, h2a.symm⟩
          · exact absurd h (by simp)
        · simp only [MobileResult.verified.injEq] at h
          obtain ⟨h1, h2a, _, _⟩ := h
          subst h1
          exact ⟨hb, h2a.symm⟩
      · simp only [MobileResult.verified.injEq] at h
        obtain ⟨h1, h2a, _, _⟩ := h
        subst h1
        exact ⟨hb, h2a.symm⟩
    case isFalse hb => exact absurd h (by simp)

/-- The admin verified status is always "yes" or "partial" in the found
shape. -/
theorem admin_found_status (dist : Vec → Vec → ℚ) (db : DB) (q : Vec)
    (filename location : String) (s : ℚ) (v : String) (cid : ℕ) (ct : String)
    (h : (admin_verify_cow_by_nose dist db q filename location).2 =
      AdminResult.found s v cid ct) : v = "yes" ∨ v = "partial" := by
  simp only [admin_verify_cow_by_nose] at h
  split at h
  · exact absurd h (by simp)
  · split at h
    · simp only [AdminResult.found.injEq] at h
      obtain ⟨_, h2a, _, _⟩ := h
      rcases ite_eq_iff.mp h2a with ⟨_, hv⟩ | ⟨_, hv⟩
      · exact Or.inl hv.symm
      · exact Or.inr hv.symm
    · exact absurd h (by simp)

/-- C3 (amended): only the mobile path checks ambiguity.  There, when more
than one distinct individual exceeds the 0.85 threshold and the best
similarity is within 0.05 of the second-highest embedding match (which may
belong to the same individual as the best), the outcome is AMBIGUOUS,
naming no winner and returning the first three high embedding matches —
which can repeat an individual.  The admin path performs no ambiguity
check: whenever its best match exceeds 0.85 it names the top individual. -/
theorem C3_ambiguity_policy :
    (∀ (dist : Vec → Vec → ℚ) (db : DB) (q : Vec) (best : VRow)
        (rest : List VRow) (h2 : VRow) (hrest2 : List VRow),
      rankAll dist q db = best :: rest →
      VERIFICATION_THRESHOLD < similarity dist q best.vec →
      ((best :: rest).filter fun r =>
          VERIFICATION_THRESHOLD < similarity dist q r.vec) =
        best :: h2 :: hrest2 →
      1 < (((best :: h2 :: hrest2).map fun r => r.cow_id).dedup).length →
      ¬ 1/20 < similarity dist q best.vec - similarity dist q h2.vec →
      verify_cow_by_nose dist db q =
        MobileResult.ambiguous (similarity dist q best.vec)
          ((((best :: h2 :: hrest2).take 3).filter fun r =>
              (((best :: h2 :: hrest2).map fun r => r.cow_id).dedup).contains
                r.cow_id).map fun r => (r.cow_tag, similarity dist q r.vec))) ∧
    (∀ (dist : Vec → Vec → ℚ) (db : DB) (q : Vec)
        (filename location : String) (best : VRow) (rest : List VRow),
      rankAll dist q db = best :: rest →
      ADMIN_THRESHOLD < similarity dist q best.vec →
      (admin_verify_cow_by_nose dist db q filename location).2 =
        AdminResult.found (similarity dist q best.vec)
          (if 90/100 < similarity dist q best.vec then "yes" else "partial")
          best.cow_id best.cow_tag) := by
  constructor
  · intro dist db q best rest h2 hrest2 hr hbest hhigh hcows hgap
    exact mobile_ambiguous_eq dist db q best rest h2 hrest2 hr hbest hhigh
      hcows hgap
  · intro dist db q filename location best rest hr hs
    rw [admin_verify_found dist db q filename location best rest hr hs]

/-- Witness for C3: the two-cow store with similarities 0.90 and 0.88
produces the mobile AMBIGUOUS outcome listing both, and the admin found
outcome naming the top cow. -/
theorem C3_ambiguity_policy_witness :
    verify_cow_by_nose exDist exDbTwo [1] =
      MobileResult.ambiguous (9/10) [("T1", 9/10), ("T2", 22/25)] ∧
    (admin_verify_cow_by_nose exDist exDbTwo [1] "f.jpg" "L").2 =
      AdminResult.found (9/10) "partial" 1 "T1" := by
  have hr : rankAll exDist [1] exDbTwo = [twoRow1, twoRow2] := by
    norm_num [rankAll, List.insertionSort, List.orderedInsert, exDist,
      twoRow1, twoRow2, exDbTwo, joinCows]
  constructor
  · have h := C3_ambiguity_policy.1 exDist exDbTwo [1] twoRow1 [twoRow2]
      twoRow2 [] hr
      (by norm_num [VERIFICATION_THRESHOLD, similarity, exDist, twoRow1])
      (by norm_num [List.filter, VERIFICATION_THRESHOLD, similarity, exDist,
        twoRow1, twoRow2])
      (by norm_num [List.dedup, twoRow1, twoRow2, List.dedup_cons_of_not_mem])
      (by norm_num [similarity, exDist, twoRow1, twoRow2])
    rw [h]
    norm_num [similarity, exDist, twoRow1, twoRow2, List.take, List.filter,
      List.dedup, List.contains]
  · have h := C3_ambiguity_policy.2 exDist exDbTwo [1] "f.jpg" "L" twoRow1
      [twoRow2] hr
      (by norm_num [ADMIN_THRESHOLD, similarity, exDist, twoRow1])
    rw [h]
    norm_num [similarity, exDist, twoRow1]

/-- Counterexample to C3 as stated.  First: the admin path, on a query with
two distinct individuals above 0.85 whose gap 0.02 is below the 0.05
ambiguity gap, names a winner instead of returning AMBIGUOUS.  Second: in
the mobile ambiguous response the listed candidates are the first three
embedding matches, not the top three distinct individuals — here cow T1
appears twice and the qualifying cow T3 is omitted. -/
theorem C3_admin_never_ambiguous_cex :
    (admin_verify_cow_by_nose exDist exDbTwo [1] "f.jpg" "L").2 =
      AdminResult.found (9/10) "partial" 1 "T1" ∧
    VERIFICATION_THRESHOLD < similarity exDist [1] [9/10] ∧
    VERIFICATION_THRESHOLD < similarity exDist [1] [22/25] ∧
    ¬ 1/20 < similarity exDist [1] [9/10] - similarity exDist [1] [22/25] ∧
    verify_cow_by_nose exDist exDbFour [1] =
      MobileResult.ambiguous (19/20)
        [("T1", 19/20), ("T1", 47/50), ("T2", 93/100)] ∧
    VERIFICATION_THRESHOLD < similarity exDist [1] [43/50] := by
  refine ⟨?_, ?_, ?_, ?_, ?_, ?_⟩
  · norm_num [admin_verify_cow_by_nose, rankAll, joinCows, exDbTwo, exDist,
      similarity, ADMIN_THRESHOLD, List.insertionSort, List.orderedInsert,
      List.find?]
  · norm_num [VERIFICATION_THRESHOLD, similarity, exDist]
  · norm_num [VERIFICATION_THRESHOLD, similarity, exDist]
  · norm_num [similarity, exDist]
  · norm_num [verify_cow_by_nose, rankAll, joinCows, exDbFour, exDist,
      similarity, VERIFICATION_THRESHOLD, List.insertionSort,
      List.orderedInsert, List.find?, List.filter, List.dedup, List.contains,
      List.take]
  · norm_num [VERIFICATION_THRESHOLD, similarity, exDist]

/-- C4 (amended): the mobile path never produces a PARTIAL outcome — every
VERIFIED mobile response has best similarity above 0.85 and carries a
HIGH/MEDIUM confidence level split at 0.92, while the admin path grades
its found outcome "yes" above 0.90 and "partial" otherwise; the admin
found status is always exactly one of "yes" and "partial" (with "no" as
its not-found outcome), so each call yields exactly one outcome of its
path's outcome type. -/
theorem C4_outcome_policy :
    (∀ (dist : Vec → Vec → ℚ) (db : DB) (q : Vec) (s : ℚ) (conf : String)
        (cid : ℕ) (ct : String),
      verify_cow_by_nose dist db q = MobileResult.verified s conf cid ct →
      VERIFICATION_THRESHOLD < s ∧
      conf = (if 92/100 < s then "HIGH" else "MEDIUM")) ∧
    (∀ (dist : Vec → Vec → ℚ) (db : DB) (q : Vec)
        (filename location : String) (best : VRow) (rest : List VRow),
      rankAll dist q db = best :: rest →
      ADMIN_THRESHOLD < similarity dist q best.vec →
      (admin_verify_cow_by_nose dist db q filename location).2 =
        AdminResult.found (similarity dist q best.vec)
          (if 90/100 < similarity dist q best.vec then "yes" else "partial")
          best.cow_id best.cow_tag) ∧
    (∀ (dist : Vec → Vec → ℚ) (db : DB) (q : Vec)
        (filename location : String) (s : ℚ) (v : String) (cid : ℕ)
        (ct : String),
      (admin_verify_cow_by_nose dist db q filename location).2 =
        AdminResult.found s v cid ct → v = "yes" ∨ v = "partial") := by
  refine ⟨?_, ?_, ?_⟩
  · intro dist db q s conf cid ct h
    exact mobile_verified_inv dist db q s conf cid ct h
  · intro dist db q filename location best rest hr hs
    rw [admin_verify_found dist db q filename location best rest hr hs]
  · intro dist db q filename location s v cid ct h
    exact admin_found_status dist db q filename location s v cid ct h

/-- Witness for C4 at the concrete single-cow store. -/
theorem C4_outcome_policy_witness :
    (VERIFICATION_THRESHOLD < (9/10 : ℚ) ∧
      ("MEDIUM" : String) = (if (92/100 : ℚ) < 9/10 then "HIGH" else "MEDIUM")) ∧
    (("partial" : String) = "yes" ∨ ("partial" : String) = "partial") := by
  constructor
  · exact C4_outcome_policy.1 exDist exDbSingle [1] (9/10) "MEDIUM" 1 "T1"
      (by norm_num [verify_cow_by_nose, rankAll, joinCows, exDbSingle, exDist,
        similarity, VERIFICATION_THRESHOLD, List.insertionSort,
        List.orderedInsert, List.find?, List.filter, List.dedup])
  · exact C4_outcome_policy.2.2 exDist exDbTwo [1] "f.jpg" "L" (9/10)
      "partial" 1 "T1"
      (by norm_num [admin_verify_cow_by_nose, rankAll, joinCows, exDbTwo,
        exDist, similarity, ADMIN_THRESHOLD, List.insertionSort,
        List.orderedInsert, List.find?])

/-- Counterexample to C4 as stated: a mobile query with a single qualifying
individual of best similarity 0.90 — at most the claimed mobile strict
threshold 0.92, so the claim demands PARTIAL — is answered VERIFIED
(with MEDIUM confidence) by the code. -/
theorem C4_mobile_no_partial_cex :
    verify_cow_by_nose exDist exDbSingle [1] =
      MobileResult.verified (9/10) "MEDIUM" 1 "T1" ∧
    ¬ (92/100 : ℚ) < 9/10 ∧
    VERIFICATION_THRESHOLD < (9/10 : ℚ) := by
  refine ⟨?_, by norm_num, by norm_num [VERIFICATION_THRESHOLD]⟩
  norm_num [verify_cow_by_nose, rankAll, joinCows, exDbSingle, exDist,
    similarity, VERIFICATION_THRESHOLD, List.insertionSort,
    List.orderedInsert, List.find?, List.filter, List.dedup]

/-- C1 (amended): a failed registration never leaves embedding records
behind (they are staged and committed atomically at the end), but the
Owner row — created and committed before any validation — always persists,
and when the failure happens at the embedding-commit step the already
committed Cow row persists as well. -/
theorem C1_registration_failure_state (dist : Vec → Vec → ℚ) (db0 : DB)
    (req : RegRequest) (store_ok : Bool) (e : RegError)
    (h : (admin_register_new_cow dist db0 req store_ok).2 = Except.error e) :
    (admin_register_new_cow dist db0 req store_ok).1.embeddings =
      db0.embeddings ∧
    (admin_register_new_cow dist db0 req store_ok).1.owners =
      db0.owners ++ [new_owner db0 req] ∧
    ((admin_register_new_cow dist db0 req store_ok).1.cows = db0.cows ∨
     (admin_register_new_cow dist db0 req store_ok).1.cows = db0.cows ++
       [{ cow_id := db0.nextCowId, cow_tag := req.gen_tag,
          owner_id := db0.nextOwnerId }]) := by
  revert h
  simp only [admin_register_new_cow]
  split
  · intro _
    exact ⟨rfl, by simp [owner_precommit], Or.inl rfl⟩
  · split
    · intro _
      exact ⟨rfl, by simp [owner_precommit], Or.inl rfl⟩
    · split
      · intro _
        exact ⟨rfl, by simp [owner_precommit], Or.inl rfl⟩
      · split
        · split
          · intro h
            simp at h
          · intro _
            exact ⟨rfl, by simp [owner_precommit],
              Or.inr (by simp [owner_precommit, new_owner])⟩
        · intro _
          exact ⟨rfl, by simp [owner_precommit],
            Or.inr (by simp [owner_precommit, new_owner])⟩

/-- Witness for C1 at a concrete failing registration (no nose detected in
the first image). -/
theorem C1_registration_failure_state_witness :
    (admin_register_new_cow exDist emptyDB exReqNoNose true).1.embeddings =
      emptyDB.embeddings ∧
    (admin_register_new_cow exDist emptyDB exReqNoNose true).1.owners =
      emptyDB.owners ++ [new_owner emptyDB exReqNoNose] ∧
    ((admin_register_new_cow exDist emptyDB exReqNoNose true).1.cows =
        emptyDB.cows ∨
     (admin_register_new_cow exDist emptyDB exReqNoNose true).1.cows =
       emptyDB.cows ++
         [{ cow_id := emptyDB.nextCowId, cow_tag := exReqNoNose.gen_tag,
            owner_id := emptyDB.nextOwnerId }]) :=
  C1_registration_failure_state exDist emptyDB exReqNoNose true
    (RegError.noNoseDetected "a.jpg")
    (by norm_num [admin_register_new_cow, owner_precommit, new_owner,
      exReqNoNose, duplicate_check, REGISTRATION_MIN_IMAGES, emptyDB])

/-- Counterexample to C1 as stated: a registration that fails (no nose
detected in its first image) still persists the Owner row it committed
before validation — the store is not rolled back to its pre-request
state. -/
theorem C1_owner_persists_after_failure_cex :
    (admin_register_new_cow exDist emptyDB exReqNoNose true).2 =
      Except.error (RegError.noNoseDetected "a.jpg") ∧
    (admin_register_new_cow exDist emptyDB exReqNoNose true).1.owners =
      [{ owner_id := 1, full_name := "Alice" }] ∧
    emptyDB.owners = [] := by
  refine ⟨?_, ?_, rfl⟩ <;>
    norm_num [admin_register_new_cow, owner_precommit, new_owner,
      exReqNoNose, duplicate_check, REGISTRATION_MIN_IMAGES, emptyDB]

/-- With an empty embeddings table the duplicate-check query is empty. -/
theorem rankOwners_embeddings_nil {db : DB} (h : db.embeddings = [])
    (dist : Vec → Vec → ℚ) (q : Vec) : rankOwners dist q db = [] := by
  simp [rankOwners, joinOwners, h, List.insertionSort]

/-- Against a store with no embeddings the duplicate-check loop never
raises a duplicate rejection. -/
theorem duplicate_check_empty_no_dup (dist : Vec → Vec → ℚ) (db : DB)
    (h : db.embeddings = []) :
    ∀ (imgs : List RegImage) (t n : String) (s : ℚ),
      duplicate_check dist db imgs ≠
        Except.error (RegError.duplicate t n s) := by
  intro imgs
  induction imgs with
  | nil => intro t n s hc; simp [duplicate_check] at hc
  | cons img rest ih =>
    intro t n s hc
    rw [duplicate_check] at hc
    by_cases h1 : img.nose_ok = false
    · rw [if_pos h1] at hc; simp at hc
    · rw [if_neg h1] at hc
      cases hemb : img.emb1 with
      | none => rw [hemb] at hc; dsimp only at hc; simp at hc
      | some q =>
        rw [hemb] at hc
        dsimp only at hc
        rw [rankOwners_embeddings_nil h] at hc
        exact ih t n s hc

/-- The storage loop never raises a duplicate rejection. -/
theorem build_embeddings_data_no_dup :
    ∀ (imgs : List RegImage) (idx : ℕ) (t n : String) (s : ℚ),
      build_embeddings_data imgs idx ≠
        Except.error (RegError.duplicate t n s) := by
  intro imgs
  induction imgs with
  | nil => intro idx t n s h; simp [build_embeddings_data] at h
  | cons img rest ih =>
    intro idx t n s h
    rw [build_embeddings_data] at h
    cases hemb : img.emb2 with
    | none => rw [hemb] at h; simp at h
    | some v =>
      rw [hemb] at h
      cases hb : build_embeddings_data rest (idx + 1) with
      | ok tl => rw [hb] at h; simp at h
      | error e =>
        rw [hb] at h
        simp only [Except.error.injEq] at h
        exact ih (idx + 1) t n s (by rw [hb, h])

/-- Fail-fast duplicate rejection: if every image before `img` passes its
duplicate check and `img`'s top-ranked match exceeds the threshold, the
loop aborts at `img` with the duplicate error built from that match —
regardless of the images after it. -/
theorem duplicate_check_first_offender (dist : Vec → Vec → ℚ) (db : DB) :
    ∀ (pre : List RegImage) (img : RegImage) (post : List RegImage)
      (q : Vec) (bm : DRow),
      (∀ p ∈ pre, p.nose_ok = true ∧ ∃ qp, p.emb1 = some qp ∧
        ∀ b, (rankOwners dist qp db).head? = some b →
          ¬ DUPLICATE_THRESHOLD < similarity dist qp b.vec) →
      img.nose_ok = true → img.emb1 = some q →
      (rankOwners dist q db).head? = some bm →
      DUPLICATE_THRESHOLD < similarity dist q bm.vec →
      duplicate_check dist db (pre ++ img :: post) =
        Except.error (RegError.duplicate bm.cow_tag bm.full_name
          (similarity dist q bm.vec)) := by
  intro pre
  induction pre with
  | nil =>
    intro img post q bm _ hn hq hhead hthr
    rw [List.nil_append, duplicate_check, hn]
    simp only [Bool.true_eq_false, if_false]
    rw [hq]
    dsimp only
    cases hro : rankOwners dist q db with
    | nil => rw [hro] at hhead; simp at hhead
    | cons b tl =>
      rw [hro] at hhead
      simp only [List.head?_cons, Option.some.injEq] at hhead
      subst hhead
      dsimp only
      rw [if_pos hthr]
  | cons p pre ih =>
    intro img post q bm hpre hn hq hhead hthr
    obtain ⟨hpn, qp, hpq, hpbelow⟩ := hpre p (by simp)
    have hpre2 : ∀ x ∈ pre, x.nose_ok = true ∧ ∃ qx, x.emb1 = some qx ∧
        ∀ b, (rankOwners dist qx db).head? = some b →
          ¬ DUPLICATE_THRESHOLD < similarity dist qx b.vec :=
      fun x hx => hpre x (by simp [hx])
    rw [List.cons_append, duplicate_check, hpn]
    simp only [Bool.true_eq_false, if_false]
    rw [hpq]
    dsimp only
    cases hro : rankOwners dist qp db with
    | nil => exact ih img post q bm hpre2 hn hq hhead hthr
    | cons b tl =>
      dsimp only
      rw [if_neg (hpbelow b (by rw [hro]; rfl))]
      exact ih img post q bm hpre2 hn hq hhead hthr

/-- C2 (amended): each candidate vector is independently ranked against
the whole store (top-5 query); the registration is rejected at the first
image whose top-ranked similarity exceeds 0.93 without processing the
remaining images, leaving the store with only the pre-committed owner row;
the duplicate error carries the matched cow's tag, its owner's full name
and the similarity score; and an empty store never produces a duplicate
rejection. -/
theorem C2_duplicate_guard :
    (∀ (dist : Vec → Vec → ℚ) (db0 : DB) (req : RegRequest) (ok : Bool)
        (t n : String) (s : ℚ),
      db0.embeddings = [] →
      (admin_register_new_cow dist db0 req ok).2 ≠
        Except.error (RegError.duplicate t n s)) ∧
    (∀ (dist : Vec → Vec → ℚ) (db0 : DB) (req : RegRequest) (ok : Bool)
        (pre : List RegImage) (img : RegImage) (post : List RegImage)
        (q : Vec) (bm : DRow),
      req.images = pre ++ img :: post →
      req.images.length = REGISTRATION_MIN_IMAGES →
      (∀ p ∈ pre, p.nose_ok = true ∧ ∃ qp, p.emb1 = some qp ∧
        ∀ b, (rankOwners dist qp (owner_precommit db0 req)).head? = some b →
          ¬ DUPLICATE_THRESHOLD < similarity dist qp b.vec) →
      img.nose_ok = true → img.emb1 = some q →
      (rankOwners dist q (owner_precommit db0 req)).head? = some bm →
      DUPLICATE_THRESHOLD < similarity dist q bm.vec →
      (admin_register_new_cow dist db0 req ok).2 =
        Except.error (RegError.duplicate bm.cow_tag bm.full_name
          (similarity dist q bm.vec)) ∧
      (admin_register_new_cow dist db0 req ok).1 =
        owner_precommit db0 req) := by
  constructor
  · intro dist db0 req ok t n s hemp hc
    have hemp1 : (owner_precommit db0 req).embeddings = [] := hemp
    revert hc
    simp only [admin_register_new_cow]
    split
    · intro hc
      simp only [Except.error.injEq] at hc
      exact absurd hc (by simp)
    · split
      case h_1 e heq =>
        intro hc
        simp only [Except.error.injEq] at hc
        exact duplicate_check_empty_no_dup dist (owner_precommit db0 req)
          hemp1 req.images t n s (by rw [heq, hc])
      case h_2 =>
        split
        case h_1 e heq =>
          intro hc
          simp only [Except.error.injEq] at hc
          exact build_embeddings_data_no_dup req.images 0 t n s
            (by rw [heq, hc])
        case h_2 =>
          split
          · split
            · intro hc; simp at hc
            · intro hc
              simp only [Except.error.injEq] at hc
              exact absurd hc (by simp)
          · intro hc
            simp only [Except.error.injEq] at hc
            exact absurd hc (by simp)
  · intro dist db0 req ok pre img post q bm hsplit hlen hpre hn hq hhead hthr
    have hdc : duplicate_check dist (owner_precommit db0 req) req.images =
        Except.error (RegError.duplicate bm.cow_tag bm.full_name
          (similarity dist q bm.vec)) := by
      rw [hsplit]
      exact duplicate_check_first_offender dist (owner_precommit db0 req)
        pre img post q bm hpre hn hq hhead hthr
    have hnlen : ¬ req.images.length ≠ REGISTRATION_MIN_IMAGES :=
      fun hne => hne hlen
    constructor
    · simp only [admin_register_new_cow]
      rw [if_neg hnlen, hdc]
    · simp only [admin_register_new_cow]
      rw [if_neg hnlen, hdc]

/-- Witness for C2: an empty store rejects nothing as duplicate, and a
store holding a 0.95-similar embedding rejects at the first image with the
duplicate error built from the top match. -/
theorem C2_duplicate_guard_witness :
    (admin_register_new_cow exDist emptyDB exReqDup true).2 ≠
      Except.error (RegError.duplicate "T1" "Bob" (19/20)) ∧
    (admin_register_new_cow exDist exDbA exReqDup true).2 =
      Except.error (RegError.duplicate "T1" "Bob"
        (similarity exDist [1] [19/20])) ∧
    (admin_register_new_cow exDist exDbA exReqDup true).1 =
      owner_precommit exDbA exReqDup := by
  refine ⟨C2_duplicate_guard.1 exDist emptyDB exReqDup true "T1" "Bob"
    (19/20) rfl, ?_, ?_⟩
  all_goals {
    have h := C2_duplicate_guard.2 exDist exDbA exReqDup true []
      exImgOk [exImgOk, exImgOk] [1]
      { cow_id := 1, cow_tag := "T1", full_name := "Bob", vec := [19/20] }
      rfl rfl (by simp) rfl rfl rfl
      (by norm_num [DUPLICATE_THRESHOLD, similarity, exDist])
    first
    | exact h.1
    | exact h.2 }

/-- Counterexample to C2 as stated: two stores whose matched cows have
different identifiers (1 and 2) but the same tag, owner name and
similarity produce byte-for-byte identical duplicate rejections, so the
rejection does not carry the matched individual's identifier — it carries
only the tag, the owner's name and the similarity interpolated into the
HTTP 409 detail string. -/
theorem C2_duplicate_error_lacks_id_cex :
    (admin_register_new_cow exDist exDbA exReqDup true).2 =
      Except.error (RegError.duplicate "T1" "Bob" (19/20)) ∧
    (admin_register_new_cow exDist exDbB exReqDup true).2 =
      Except.error (RegError.duplicate "T1" "Bob" (19/20)) ∧
    (rankOwners exDist [1] (owner_precommit exDbA exReqDup)).head?.map
      (fun r => r.cow_id) = some 1 ∧
    (rankOwners exDist [1] (owner_precommit exDbB exReqDup)).head?.map
      (fun r => r.cow_id) = some 2 ∧
    (1 : ℕ) ≠ 2 := by
  refine ⟨?_, ?_, rfl, rfl, by norm_num⟩ <;>
    norm_num [admin_register_new_cow, owner_precommit, new_owner, exReqDup,
      exImgOk, duplicate_check, rankOwners, joinOwners, exDbA, exDbB, exDist,
      similarity, DUPLICATE_THRESHOLD, REGISTRATION_MIN_IMAGES,
      List.insertionSort, List.orderedInsert, List.find?, List.take]

end Titweng
